import Mathlib

/-!
Verification of the candidate-selection and fetch pipeline of
`bin/youtube_downloader_V3.4.py` (the repository's most recent variant).

The Python functions are shallowly embedded as executable Lean
definitions: `sanitize`, `score_entry`, the pure core of `search_best`
(query-variant loop, live filter, scoring, stable sort, URL
normalization), `get_video_list`, `download_list` (with the fetcher as
an oracle returning success / DownloadError / other exception),
`gather_tasks`'s file branch, the CLI task loop, and the guard of the
spinner poll loop.  Provider and fetcher are modelled as explicit
function arguments, mirroring the external collaborators of the spec.
-/

namespace YtDl

/-! ### String utilities (Python `str` operations used by the code) -/

/-- Python `str.lower` restricted to ASCII, as used on titles and terms. -/
def lowerStr (s : String) : String := String.mk (s.toList.map Char.toLower)

/-- Does `s` start with `pat` (Python `str.startswith`)? -/
def startsWithL : List Char → List Char → Bool
  | [], _ => true
  | _ :: _, [] => false
  | p :: ps, c :: cs => p == c && startsWithL ps cs

/-- `startsWithL` on strings. -/
def startsWithStr (pat s : String) : Bool := startsWithL pat.toList s.toList

/-- Does `s` contain `pat` as a contiguous substring (Python `in`)? -/
def containsSub (pat : List Char) : List Char → Bool
  | [] => startsWithL pat []
  | c :: cs => startsWithL pat (c :: cs) || containsSub pat cs

/-- `containsSub` on strings. -/
def containsStr (pat s : String) : Bool := containsSub pat.toList s.toList

/-- Characters stripped by Python `str.strip()` (ASCII whitespace). -/
def isPySpace (c : Char) : Bool :=
  c == ' ' || c == '\t' || c == '\n' || c == '\r' || c == '\x0b' || c == '\x0c'

/-- Drop trailing characters satisfying `p` (Python `str.rstrip`). -/
def rstripBy (p : Char → Bool) (l : List Char) : List Char :=
  (l.reverse.dropWhile p).reverse

/-- Python `str.strip()` on a character list. -/
def pyStripL (l : List Char) : List Char := rstripBy isPySpace (l.dropWhile isPySpace)

/-- Python `str.strip()`. -/
def pyStrip (s : String) : String := String.mk (pyStripL s.toList)

/-- Python truthiness default: `x or d` where an empty string is falsy. -/
def strOr (o : Option String) (d : String) : String :=
  match o with
  | none => d
  | some s => if s == "" then d else s

/-! ### Sanitizer (`sanitize`, line 37)

`INVALID_FS` is the character class `[\\/*?:"<>|]`; `re.sub` replaces
every such character with an underscore (it does not delete it). -/

/-- Membership in the `INVALID_FS` character class of line 34. -/
def invalidFS (c : Char) : Bool :=
  c == '\\' || c == '/' || c == '*' || c == '?' || c == ':' ||
  c == '"' || c == '<' || c == '>' || c == '|'

/-- `re.sub(INVALID_FS, "_", name).strip().rstrip("."))[:100]` — the value
before the final `or "output"` fallback. -/
def sanitizeCore (name : String) : List Char :=
  (rstripBy (fun c => c == '.')
    (pyStripL (name.toList.map (fun c => if invalidFS c then '_' else c)))).take 100

/-- `sanitize` (line 37): substitution, strip, rstrip dots, truncate to 100,
falling back to the literal `"output"` when the result is empty. -/
def sanitize (name : String) : String :=
  let r := sanitizeCore name
  if r.isEmpty then "output" else String.mk r

/-! ### Scorer (`score_entry`, lines 71-97)

The structural bonus tests `re.search(r".+ - .+\(\d{4}\)", title)`.
`re.search` succeeds iff the pattern matches at some position, i.e. the
title contains: a non-newline character, then the literal " - ", then
one or more non-newline characters, then "(", four digits, ")". -/

/-- Does the list begin with a `(dddd)` year group? -/
def yearParen : List Char → Bool
  | '(' :: d1 :: d2 :: d3 :: d4 :: ')' :: _ =>
    d1.isDigit && d2.isDigit && d3.isDigit && d4.isDigit
  | _ => false

/-- Matches `.+\(\d{4}\)` anchored at the start: one or more non-newline
characters followed by a `(dddd)` group. -/
def scanYear : List Char → Bool
  | [] => false
  | c :: rest => (!(c == '\n')) && (yearParen rest || scanYear rest)

/-- Matches `" - "` then `.+\(\d{4}\)` anchored at the start. -/
def dashYear : List Char → Bool
  | ' ' :: '-' :: ' ' :: rest => scanYear rest
  | _ => false

/-- `re.search(r".+ - .+\(\d{4}\)", s)` as a Boolean: the pattern matches
somewhere in `s`. -/
def hasStructL : List Char → Bool
  | [] => false
  | c :: rest => ((!(c == '\n')) && dashYear rest) || hasStructL rest

/-- A provider result record as consumed by the code: the dictionary keys
`url`, `title`, `_type`, `playlist_count`, `view_count`, `duration`.
Optional fields model absent / `None` keys. -/
structure Entry where
  url : String
  title : Option String := none
  etype : Option String := none
  playlist_count : Option Nat := none
  view_count : Option Nat := none
  duration : Option Nat := none
deriving DecidableEq

/-- `(entry.get("title") or "").lower()`. -/
def lowerTitleOf (e : Entry) : String := lowerStr (e.title.getD "")

/-- `score_entry` (line 71): returns `(score, kind)` with
`kind` either `"playlist"` or `"video"`. -/
def score_entry (e : Entry) (boost_full : Bool) : Int × String :=
  let title := lowerTitleOf e
  let bonus_struct : Int := if hasStructL title.toList then 300 else 0
  let bonus_full : Int :=
    if boost_full && containsStr "full album" title then 400
    else if containsStr "full album" title then 100 else 0
  let bonus_off : Int := if containsStr "official" title then 50 else 0
  let malus : Int :=
    if containsStr "review" title || containsStr "cover" title then -100 else 0
  if e.etype == some "playlist" then
    (((e.playlist_count.getD 0 : Nat) : Int) + bonus_struct + bonus_full + bonus_off + malus,
     "playlist")
  else
    (((e.view_count.getD 0 / 100000 : Nat) : Int) + bonus_struct + bonus_full + bonus_off + malus,
     "video")

/-! ### Search Session (`search_best`, lines 116-209)

The provider (`yt-dlp` search) is an oracle mapping a query string to a
response: either an error or a list of optional entries (`None` holes
included, as `ignoreerrors` can produce them). -/

/-- Outcome of one provider search call: the `("err", exc)` or
`("ok", data)` message posted by `_search_worker`, with `data.entries`. -/
inductive SearchResp where
  | err (msg : String)
  | ok (entries : List (Option Entry))
deriving DecidableEq

/-- `want_live` (line 117): the lower-cased term contains "live". -/
def wantLive (term : String) : Bool := containsStr "live" (lowerStr term)

/-- `boost_full` (line 118): the lower-cased term contains "full album". -/
def boostFull (term : String) : Bool := containsStr "full album" (lowerStr term)

/-- The query-variant list of lines 119-123. -/
def queriesOf (term : String) : List String :=
  if boostFull term then ["ytsearch20:" ++ term]
  else ["ytsearch20:" ++ term, "ytsearch20:" ++ term ++ " full album"]

/-- URL normalization of lines 156-160 and 199-203. -/
def normUrl (kind url : String) : String :=
  if kind == "playlist" && !startsWithStr "http" url then
    "https://www.youtube.com/playlist?list=" ++ url
  else if kind == "video" && !startsWithStr "http" url then
    "https://www.youtube.com/watch?v=" ++ url
  else url

/-- One candidate row of the `cands` list (lines 167-177; the display-only
`metric` and `dur` fields are omitted: they feed no decision). -/
structure Cand where
  idx : Nat
  entry : Entry
  score : Int
  kind : String
  url : String
deriving DecidableEq

/-- Build the candidate row for entry `e` at 1-based index `i`. -/
def mkCand (i : Nat) (e : Entry) (bf : Bool) : Cand :=
  let sk := score_entry e bf
  { idx := i, entry := e, score := sk.1, kind := sk.2, url := normUrl sk.2 e.url }

/-- The candidate-construction loop of lines 148-177, carrying the current
1-based `enumerate` index: skip `None` entries, skip live-titled entries
unless `want_live`, otherwise score and keep. -/
def mkCandsAux (wl bf : Bool) : Nat → List (Option Entry) → List Cand
  | _, [] => []
  | i, none :: rest => mkCandsAux wl bf (i + 1) rest
  | i, some e :: rest =>
    if !wl && containsStr "live" (lowerTitleOf e) then mkCandsAux wl bf (i + 1) rest
    else mkCand i e bf :: mkCandsAux wl bf (i + 1) rest

/-- The `cands` list built from one provider response (index starts at 1). -/
def mkCands (wl bf : Bool) (entries : List (Option Entry)) : List Cand :=
  mkCandsAux wl bf 1 entries

/-- Sort order of line 178: ascending on the key `(-score, idx)`. -/
def candLE (a b : Cand) : Bool :=
  decide (b.score < a.score) || (a.score == b.score && decide (a.idx ≤ b.idx))

/-- Stable insertion for `sortCands`. -/
def insertCand (c : Cand) : List Cand → List Cand
  | [] => [c]
  | d :: ds => if candLE c d then c :: d :: ds else d :: insertCand c ds

/-- `cands.sort(key=lambda c: (-score, idx))` (line 178): a stable sort;
as all `idx` are distinct the result is the unique sorted ordering. -/
def sortCands : List Cand → List Cand
  | [] => []
  | c :: cs => insertCand c (sortCands cs)

/-- Result of the variant loop: the list of queries actually issued to the
provider and the selected best candidate, if any. -/
structure SearchRun where
  issued : List String
  sel : Option Cand
deriving DecidableEq

/-- The query-variant loop of lines 126-194: issue each query in order;
on provider error continue to the next variant; on a non-empty sorted
candidate list select its head and stop. -/
def runQueries (provider : String → SearchResp) (wl bf : Bool) :
    List String → SearchRun
  | [] => ⟨[], none⟩
  | q :: rest =>
    match provider q with
    | .err _ =>
      let r := runQueries provider wl bf rest
      ⟨q :: r.issued, r.sel⟩
    | .ok entries =>
      match sortCands (mkCands wl bf entries) with
      | [] =>
        let r := runQueries provider wl bf rest
        ⟨q :: r.issued, r.sel⟩
      | c :: _ => ⟨[q], some c⟩

/-- `search_best` up to the selection of `best_entry` (lines 116-194). -/
def search_best_run (provider : String → SearchResp) (term : String) : SearchRun :=
  runQueries provider (wantLive term) (boostFull term) (queriesOf term)

/-- `search_best` (lines 116-209): the returned final URL, or the
`Exception` of line 197 when no variant yielded a candidate. -/
def search_best (provider : String → SearchResp) (term : String) :
    Except String String :=
  match (search_best_run provider term).sel with
  | none => .error ("Aucun résultat pertinent pour « " ++ term ++ " ».")
  | some c => .ok (normUrl c.kind c.entry.url)

/-! ### Collection Expander (`get_video_list`, lines 213-238) -/

/-- The flat-extracted descriptor returned by the provider for a locator:
keys `_type`, `entries`, `title`. -/
structure Info where
  itype : Option String := none
  entries : List (Option Entry) := []
  title : Option String := none
deriving DecidableEq

/-- Member-locator normalization of lines 229-234. -/
def resolveMember (e : Entry) : String :=
  if startsWithStr "http" e.url then e.url
  else "https://www.youtube.com/watch?v=" ++ e.url

/-- `get_video_list` (line 213): given the input `url` and the descriptor
the provider returned for it, produce `(urls, is_playlist, title)`.  The
code raises nothing on its own: an empty playlist yields `([], true, _)`. -/
def get_video_list (url : String) (info : Info) : List String × Bool × String :=
  if info.itype == some "playlist" then
    ((info.entries.filterMap id).map resolveMember, true, strOr info.title "playlist")
  else
    ([url], false, strOr info.title "video")

/-! ### Fetch Orchestrator (`download_list`, lines 273-305)

The fetcher (`ydl.download([url])`) is an oracle: it succeeds, raises
`DownloadError` (the only exception the loop catches), or raises some
other exception. -/

/-- Outcome of one `ydl.download([url])` call. -/
inductive FetchOutcome where
  | ok
  | dlError (msg : String)
  | otherExc (msg : String)
deriving DecidableEq

/-- Is the outcome an exception other than `DownloadError`? -/
def FetchOutcome.isExn : FetchOutcome → Bool
  | .otherExc _ => true
  | _ => false

/-- Trace of a `download_list` run: either the loop finished (`done`,
line 301 onward) or an uncaught exception escaped mid-loop (`raised`).
`attempted` lists the urls for which a fetch was started, in order;
`fails` is the accumulated `fails` list of line 284. -/
inductive DLRun where
  | done (attempted : List String) (fails : List (String × String))
  | raised (attempted : List String) (fails : List (String × String)) (msg : String)
deriving DecidableEq

/-- The per-item loop of lines 285-300: only `DownloadError` is caught and
recorded as `(url, str(e))`; any other exception escapes at once. -/
def download_list_aux (fetch : String → FetchOutcome)
    (attempted : List String) (fails : List (String × String)) :
    List String → DLRun
  | [] => .done attempted fails
  | u :: rest =>
    match fetch u with
    | .ok => download_list_aux fetch (attempted ++ [u]) fails rest
    | .dlError m => download_list_aux fetch (attempted ++ [u]) (fails ++ [(u, m)]) rest
    | .otherExc m => .raised (attempted ++ [u]) fails m

/-- `download_list` (line 273) as a trace over the fetch oracle. -/
def download_list (fetch : String → FetchOutcome) (urls : List String) : DLRun :=
  download_list_aux fetch [] [] urls

/-- The `(url, str(e))` pairs `download_list` records for a url list whose
fetches raise no exception other than `DownloadError`. -/
def failsOf (fetch : String → FetchOutcome) (urls : List String) :
    List (String × String) :=
  urls.filterMap (fun u =>
    match fetch u with
    | .dlError m => some (u, m)
    | _ => none)

/-! ### Task gathering (`gather_tasks`, lines 322-336) and CLI loop
(`cli`, lines 339-378) -/

/-- The input-file branch of `gather_tasks` (lines 326-331): strip each
line, skip empty results, classify by `startswith("http")`.  There is no
treatment of `#` lines. -/
def gather_file_tasks (lines : List String) : List (String × String) :=
  lines.filterMap (fun l =>
    let s := pyStrip l
    if s == "" then none
    else some (if startsWithStr "http" s then ("url", s) else ("search", s)))

/-- Modelled refinement target: the amended spec sentence for file input —
blank lines are ignored, every other stripped line starting with "http"
becomes a url task and every remaining line (including lines starting
with `#`) becomes a search task, in file order. -/
def specGatherAmended (lines : List String) : List (String × String) :=
  ((lines.map pyStrip).filter (fun s => !(s == ""))).map
    (fun s => if startsWithStr "http" s then ("url", s) else ("search", s))

/-- Observable outcome of the `cli` task loop (lines 359-378): the
per-task error lines printed by the `except` clause, and the process
exit code.  The loop tracks no failure flag and the function falls off
its end, so the process exits with code 0 whatever happened. -/
structure CliRun where
  printedErrors : List (String × String)
  exitCode : Nat
deriving DecidableEq

/-- The `for kind, val in tasks` loop: each task runs under
`try/except Exception`, a failure prints `(val, message)` and the loop
continues with the next task. -/
def cli_loop (runTask : String × String → Except String Unit) :
    List (String × String) → List (String × String)
  | [] => []
  | t :: rest =>
    match runTask t with
    | .ok _ => cli_loop runTask rest
    | .error e => (t.2, e) :: cli_loop runTask rest

/-- The whole task-processing phase of `cli` after argument handling. -/
def cli_run (runTask : String × String → Except String Unit)
    (tasks : List (String × String)) : CliRun :=
  { printedErrors := cli_loop runTask tasks, exitCode := 0 }

/-! ### Spinner poll loop (lines 132-139)

`spin = tqdm(total=0, ...)` stores `spin.total = 0` (tqdm only converts a
`float("inf")` total to `None`), and `spin.total` is never reassigned.
The loop guard is `spin.total == 0 or not q.qsize()`. -/

/-- The `total` attribute of the spinner bar, as created on line 132. -/
def tqdmSpinTotal : Nat := 0

/-- The guard of the `while` loop on line 135, given the current values of
`spin.total` and `q.qsize()`. -/
def pollGuard (spinTotal qsize : Nat) : Bool :=
  (spinTotal == 0) || (qsize == 0)

/-- Does the poll loop exit within `n` iterations, when iteration `i`
observes queue size `qsizeAt i`?  The loop exits exactly when its guard
becomes false. -/
def pollLoopExitsWithin (qsizeAt : Nat → Nat) : Nat → Bool
  | 0 => false
  | n + 1 =>
    (!pollGuard tqdmSpinTotal (qsizeAt 0)) ||
    pollLoopExitsWithin (fun i => qsizeAt (i + 1)) n

/-! ### Concrete records for the scenario claims -/

/-- The §8 collection record: playlist, 12 members. -/
def c1Coll : Entry :=
  { url := "PL123", title := some "Band - Album (1999) Full Album [Official]",
    etype := some "playlist", playlist_count := some 12 }

/-- The §8 item record: video, 2,000,000 views. -/
def c1Item : Entry :=
  { url := "vid99", title := some "Band - Album (1999) Full Album (review)",
    view_count := some 2000000 }

/-- The §8 search term. -/
def c1Term : String := "Band - Album (1999) full album"

/-- Provider oracle for the §8 scenario: the single boosted query returns
the collection then the item; anything else returns no entries. -/
def c1Provider : String → SearchResp := fun q =>
  if q == "ytsearch20:" ++ c1Term then .ok [some c1Coll, some c1Item] else .ok []

/-- A fetch oracle where exactly the url `"u3"` fails with `DownloadError`. -/
def c2Fetch : String → FetchOutcome :=
  fun u => if u == "u3" then .dlError "geo-blocked" else .ok

/-- A fetch oracle where the url `"b"` raises a non-`DownloadError`
exception. -/
def c10Fetch : String → FetchOutcome :=
  fun u => if u == "b" then .otherExc "KeyError" else .ok

/-- An entry whose title mentions a live performance. -/
def c6Live : Entry := { url := "v1", title := some "Great LIVE show" }

/-- An eligible entry for the variant-short-circuit scenario. -/
def c7Entry : Entry := { url := "v7", title := some "neat song official" }

/-- A provider whose first variant succeeds with one eligible entry and
whose second variant would fail. -/
def c7Provider : String → SearchResp := fun q =>
  if q == "ytsearch20:neat song" then SearchResp.ok [some c7Entry]
  else SearchResp.err "transport"

/-- A task runner on which every task fails. -/
def c8Fail : String × String → Except String Unit := fun _ => .error "boom"

end YtDl

namespace YtDl

/-! ## Helper lemmas -/

/-- Processing a url list prefix that raises nothing but `DownloadError`
just extends the accumulators. -/
theorem download_list_append (fetch : String → FetchOutcome) :
    ∀ (pre attempted : List String) (fails : List (String × String))
      (rest : List String), (∀ v ∈ pre, (fetch v).isExn = false) →
      download_list_aux fetch attempted fails (pre ++ rest) =
        download_list_aux fetch (attempted ++ pre) (fails ++ failsOf fetch pre) rest := by
  intro pre
  induction pre with
  | nil => intro att fls rest h; simp [failsOf]
  | cons v pre ih =>
    intro att fls rest h
    have hv : (fetch v).isExn = false := h v (by simp)
    have hrest : ∀ x ∈ pre, (fetch x).isExn = false := fun x hx => h x (by simp [hx])
    cases hfv : fetch v with
    | ok =>
      simp only [List.cons_append, download_list_aux, hfv, List.append_eq]
      rw [ih (att ++ [v]) fls rest hrest]
      simp [failsOf, List.filterMap_cons, hfv]
    | dlError m =>
      simp only [List.cons_append, download_list_aux, hfv, List.append_eq]
      rw [ih (att ++ [v]) (fls ++ [(v, m)]) rest hrest]
      simp [failsOf, List.filterMap_cons, hfv]
    | otherExc m =>
      exfalso
      rw [hfv] at hv
      simp [FetchOutcome.isExn] at hv

/-- Every candidate produced with start index `s` has index at least `s`. -/
theorem mkCandsAux_idx_ge (wl bf : Bool) :
    ∀ (l : List (Option Entry)) (s : Nat) (c : Cand),
      c ∈ mkCandsAux wl bf s l → s ≤ c.idx := by
  intro l
  induction l with
  | nil => intro s c hc; simp [mkCandsAux] at hc
  | cons x rest ih =>
    intro s c hc
    cases x with
    | none =>
      simp only [mkCandsAux] at hc
      exact le_trans (Nat.le_succ s) (ih (s + 1) c hc)
    | some e =>
      simp only [mkCandsAux] at hc
      by_cases hf : (!wl && containsStr "live" (lowerTitleOf e)) = true
      · rw [if_pos hf] at hc
        exact le_trans (Nat.le_succ s) (ih (s + 1) c hc)
      · rw [if_neg hf] at hc
        rcases List.mem_cons.mp hc with h1 | h1
        · subst h1; simp [mkCand]
        · exact le_trans (Nat.le_succ s) (ih (s + 1) c h1)

/-- No candidate in a list whose indices are all at least `s` has an index
`m < s`. -/
theorem any_idx_eq_false (l : List Cand) (m s : Nat) (hms : m < s)
    (hl : ∀ c ∈ l, s ≤ c.idx) : (l.any (fun c => c.idx == m)) = false := by
  induction l with
  | nil => rfl
  | cons c cs ih =>
    have h1 : s ≤ c.idx := hl c (by simp)
    have h2 : (c.idx == m) = false := by
      simp only [beq_eq_false_iff_ne, ne_eq]
      omega
    simp only [List.any_cons, h2, Bool.false_or]
    exact ih (fun d hd => hl d (by simp [hd]))

/-- Presence of position `j`'s entry among the candidates built from start
index `s` is decided exactly by the live filter. -/
theorem mkCandsAux_any_idx (wl bf : Bool) :
    ∀ (l : List (Option Entry)) (s j : Nat) (e : Entry), l[j]? = some (some e) →
      ((mkCandsAux wl bf s l).any (fun c => c.idx == s + j))
        = (wl || !containsStr "live" (lowerTitleOf e)) := by
  intro l
  induction l with
  | nil => intro s j e h; simp at h
  | cons x rest ih =>
    intro s j e h
    cases j with
    | zero =>
      have hx : x = some e := by simpa using h
      subst hx
      cases hwl : wl with
      | false =>
        cases hlv : containsStr "live" (lowerTitleOf e) with
        | false =>
          simp only [mkCandsAux, hwl, hlv, Bool.not_false, Bool.true_and,
            Bool.false_or, if_false]
          simp [List.any_cons, mkCand, Nat.add_zero]
        | true =>
          simp only [mkCandsAux, hwl, hlv, Bool.not_false, Bool.true_and, if_true]
          simp only [Nat.add_zero]
          rw [any_idx_eq_false _ s (s + 1) (Nat.lt_succ_self s)
            (fun c hc => mkCandsAux_idx_ge wl bf rest (s + 1) c (by rw [hwl]; exact hc))]
          simp
      | true =>
        simp only [mkCandsAux, hwl, Bool.not_true, Bool.false_and, if_false]
        simp [List.any_cons, mkCand, Nat.add_zero]
    | succ j =>
      have hrest : rest[j]? = some (some e) := by simpa using h
      have harith : s + (j + 1) = (s + 1) + j := by omega
      cases x with
      | none =>
        simp only [mkCandsAux]
        simp only [harith]
        exact ih (s + 1) j e hrest
      | some x1 =>
        simp only [mkCandsAux]
        by_cases hf : (!wl && containsStr "live" (lowerTitleOf x1)) = true
        · rw [if_pos hf, harith]
          exact ih (s + 1) j e hrest
        · rw [if_neg hf]
          have hhead : ((mkCand s x1 bf).idx == s + (j + 1)) = false := by
            simp only [mkCand, beq_eq_false_iff_ne, ne_eq]
            omega
          simp only [List.any_cons, hhead, Bool.false_or]
          simp only [harith]
          exact ih (s + 1) j e hrest

/-- Inserting into a candidate list never yields the empty list. -/
theorem insertCand_ne_nil (c : Cand) (l : List Cand) : insertCand c l ≠ [] := by
  cases l with
  | nil => simp [insertCand]
  | cons d ds =>
    simp only [insertCand]
    split <;> simp

/-! ## Claim theorems -/

/-- Claim C1, counterexample: in the §8 scenario the Scorer gives the item
record score 620, not the claimed 670 (its title contains no "official",
so the +50 bonus never applies). -/
theorem c1_item_score_cex :
    (score_entry c1Item true).1 = 620 ∧ (score_entry c1Item true).1 ≠ 670 := by
  decide

/-- Claim C1, amended: in the §8 scenario the Scorer gives the collection
score 762 and the item score 620, and the Search Session issues the single
boosted query and selects the collection, returning its normalized
playlist URL. -/
theorem c1_scenario_amended :
    score_entry c1Coll true = (762, "playlist") ∧
    score_entry c1Item true = (620, "video") ∧
    (search_best_run c1Provider c1Term).sel = some (mkCand 1 c1Coll true) ∧
    search_best c1Provider c1Term =
      Except.ok "https://www.youtube.com/playlist?list=PL123" := by
  refine ⟨by decide, by decide, by decide, ?_⟩
  rfl

/-- Claim C2: when no fetch raises anything other than `DownloadError`,
`download_list` completes without raising, attempts every url in order,
and records exactly the `(url, reason)` pair of each failed fetch. -/
theorem c2_fetch_isolation (fetch : String → FetchOutcome) (urls : List String)
    (h : ∀ u ∈ urls, (fetch u).isExn = false) :
    download_list fetch urls = .done urls (failsOf fetch urls) := by
  have h1 := download_list_append fetch urls [] [] [] h
  simpa [download_list, download_list_aux] using h1

/-- Claim C2, witness: five urls where exactly `"u3"` fails with a
`DownloadError`; all five are attempted and the failure list is exactly
`[("u3", "geo-blocked")]`. -/
theorem c2_fetch_isolation_witness :
    download_list c2Fetch ["u1", "u2", "u3", "u4", "u5"] =
      DLRun.done ["u1", "u2", "u3", "u4", "u5"] [("u3", "geo-blocked")] := by
  have h := c2_fetch_isolation c2Fetch ["u1", "u2", "u3", "u4", "u5"] (by decide)
  rw [h]
  decide

/-- Claim C3 (code bug): the guard of the spinner poll loop on line 135 is
`spin.total == 0 or not q.qsize()`, and `spin.total` stays 0, so the loop
never exits — for every queue-size trace (in particular once the worker
has enqueued the outcome and the size is positive) and every number of
iterations, the loop has not exited. -/
theorem c3_poll_never_exits (qsizeAt : Nat → Nat) (n : Nat) :
    pollLoopExitsWithin qsizeAt n = false := by
  induction n generalizing qsizeAt with
  | zero => rfl
  | succ n ih => simp [pollLoopExitsWithin, pollGuard, tqdmSpinTotal, ih]

/-- Claim C3, witness: even with the outcome already enqueued (queue size
constantly 1) the loop has not exited after 5 iterations. -/
theorem c3_poll_never_exits_witness :
    pollLoopExitsWithin (fun _ => 1) 5 = false :=
  c3_poll_never_exits (fun _ => 1) 5

/-- Claim C4, counterexample: `sanitize "???"` returns `"___"`, not the
fallback `"output"` — `re.sub` replaces each invalid character with an
underscore instead of deleting it, so the result is never empty. -/
theorem c4_sanitize_cex :
    sanitize "???" = "___" ∧ sanitize "???" ≠ "output" := by
  decide

/-- Claim C4, amended: the fallback `"output"` is returned whenever the
substituted-trimmed-truncated result is empty; `sanitize "" = "output"`,
but `sanitize "???" = "___"`, and `sanitize "A/B:C" = "A_B_C"`. -/
theorem c4_sanitize_amended :
    (∀ name : String, sanitizeCore name = [] → sanitize name = "output") ∧
    sanitize "" = "output" ∧ sanitize "???" = "___" ∧ sanitize "A/B:C" = "A_B_C" := by
  refine ⟨?_, by decide, by decide, by decide⟩
  intro name h
  simp [sanitize, h]

/-- Claim C4, amended, witness: the empty input has an empty core result
and indeed falls back to `"output"`. -/
theorem c4_sanitize_amended_witness : sanitize "" = "output" :=
  c4_sanitize_amended.1 "" (by decide)

/-- Claim C5, counterexample: for a collection descriptor with zero
resolvable members, `get_video_list` returns the empty item list (with
`is_playlist = true` and the title) — it raises nothing; no
`EmptyCollectionError` exists anywhere in the code. -/
theorem c5_empty_collection_cex :
    get_video_list "u" { itype := some "playlist", entries := [], title := some "T" }
      = ([], true, "T") := by
  decide

/-- Claim C5, amended: for every locator whose descriptor is a collection
with zero resolvable members, the expander returns the empty item list
together with `is_playlist = true` and the collection title. -/
theorem c5_empty_collection_amended (url : String) (info : Info)
    (h1 : info.itype = some "playlist") (h2 : info.entries.filterMap id = []) :
    get_video_list url info = ([], true, strOr info.title "playlist") := by
  simp [get_video_list, h1, h2]

/-- Claim C5, amended, witness: a playlist descriptor whose only entry is
unresolvable (`None`) expands to the empty list. -/
theorem c5_empty_collection_amended_witness :
    get_video_list "u2" { itype := some "playlist", entries := [none], title := none }
      = ([], true, strOr none "playlist") :=
  c5_empty_collection_amended "u2"
    { itype := some "playlist", entries := [none], title := none } rfl (by decide)

/-- Claim C6: an entry at position `j` of a variant's response enters the
candidate list exactly when the term wants live titles or its lower-cased
title does not contain "live" — so for a term without "live" every
live-titled record is excluded regardless of score, and for a term with
"live" it is not excluded. -/
theorem c6_live_filter (term : String) (bf : Bool) (entries : List (Option Entry))
    (j : Nat) (e : Entry) (h : entries[j]? = some (some e)) :
    ((mkCands (wantLive term) bf entries).any (fun c => c.idx == j + 1))
      = (wantLive term || !containsStr "live" (lowerTitleOf e)) := by
  have h1 := mkCandsAux_any_idx (wantLive term) bf entries 1 j e h
  simpa [mkCands, Nat.add_comm] using h1

/-- Claim C6, witness: for the term "some band" (no "live") the live-titled
entry at position 0 is excluded from candidacy. -/
theorem c6_live_filter_witness :
    ((mkCands (wantLive "some band") false [some c6Live]).any (fun c => c.idx == 0 + 1))
      = (wantLive "some band" || !containsStr "live" (lowerTitleOf c6Live)) :=
  c6_live_filter "some band" false [some c6Live] 0 c6Live rfl

/-- Claim C7: if the term does not boost (two variants exist) and the first
variant's provider response yields at least one eligible candidate, then
the session issues exactly the first query — the second variant is never
sent to the provider. -/
theorem c7_variant_short_circuit (term : String) (provider : String → SearchResp)
    (entries : List (Option Entry))
    (hbf : boostFull term = false)
    (hresp : provider ("ytsearch20:" ++ term) = SearchResp.ok entries)
    (hne : mkCands (wantLive term) false entries ≠ []) :
    (search_best_run provider term).issued = ["ytsearch20:" ++ term] := by
  unfold search_best_run queriesOf
  rw [hbf]
  obtain ⟨c, cs, hsc⟩ :
      ∃ c cs, sortCands (mkCands (wantLive term) false entries) = c :: cs := by
    cases hm : mkCands (wantLive term) false entries with
    | nil => exact absurd hm hne
    | cons a as =>
      cases hs : insertCand a (sortCands as) with
      | nil => exact absurd hs (insertCand_ne_nil a (sortCands as))
      | cons c cs => exact ⟨c, cs, by simpa [sortCands] using hs⟩
  simp only [Bool.false_eq_true, if_false, runQueries, hresp, hsc]

/-- Claim C7, witness: a provider whose first variant returns one eligible
entry; only the first query is issued. -/
theorem c7_variant_short_circuit_witness :
    (search_best_run c7Provider "neat song").issued = ["ytsearch20:" ++ "neat song"] :=
  c7_variant_short_circuit "neat song" c7Provider [some c7Entry]
    (by decide) (by decide) (by decide)

/-- Claim C8, counterexample: a run whose single task fails still ends with
exit code 0 — the CLI loop prints the per-task error and continues, but
tracks no failure flag, so the process exit code never distinguishes
"some task failed" from "all succeeded". -/
theorem c8_exit_code_cex :
    (cli_run c8Fail [("search", "x")]).printedErrors = [("x", "boom")] ∧
    (cli_run c8Fail [("search", "x")]).exitCode = 0 := by
  decide

/-- Claim C8, amended: for every task list and task runner, the run
continues past each failed task (every failure is printed, in order) and
the process exit code is always 0, regardless of failures. -/
theorem c8_exit_code_amended (runTask : String × String → Except String Unit)
    (tasks : List (String × String)) :
    (cli_run runTask tasks).exitCode = 0 ∧
    (cli_run runTask tasks).printedErrors =
      tasks.filterMap (fun t =>
        match runTask t with
        | .ok _ => none
        | .error e => some (t.2, e)) := by
  refine ⟨rfl, ?_⟩
  show cli_loop runTask tasks = _
  induction tasks with
  | nil => rfl
  | cons t rest ih =>
    cases ht : runTask t with
    | ok v => simp [cli_loop, ht, ih, List.filterMap_cons]
    | error e => simp [cli_loop, ht, ih, List.filterMap_cons]

/-- Claim C8, amended, witness: the single-failing-task run at the concrete
runner, via the amended theorem. -/
theorem c8_exit_code_amended_witness :
    (cli_run c8Fail [("search", "x")]).exitCode = 0 ∧
    (cli_run c8Fail [("search", "x")]).printedErrors =
      [("search", "x")].filterMap (fun t =>
        match c8Fail t with
        | .ok _ => none
        | .error e => some (t.2, e)) :=
  c8_exit_code_amended c8Fail [("search", "x")]

/-- Claim C9, counterexample: a line starting with `#` is not ignored —
`gather_tasks` has no comment handling, so `"# comment"` becomes a search
task. -/
theorem c9_hash_lines_cex :
    gather_file_tasks ["# comment"] = [("search", "# comment")] ∧
    gather_file_tasks ["# comment"] ≠ [] := by
  decide

/-- Claim C9, amended: file input ignores blank lines only; every remaining
stripped line starting with "http" becomes a url task and every other
remaining line — including lines starting with `#` — becomes a search
task, in file order. -/
theorem c9_gather_amended (lines : List String) :
    gather_file_tasks lines = specGatherAmended lines := by
  induction lines with
  | nil => rfl
  | cons l rest ih =>
    by_cases hl : pyStrip l = ""
    · simp [gather_file_tasks, specGatherAmended, List.filterMap_cons,
        List.filter_cons, hl]
      simpa [gather_file_tasks, specGatherAmended] using ih
    · simp [gather_file_tasks, specGatherAmended, List.filterMap_cons,
        List.filter_cons, hl]
      simpa [gather_file_tasks, specGatherAmended] using ih

/-- Claim C9, amended, witness: a `#` line, a blank line, a url line and a
term line, gathered as the amended claim describes. -/
theorem c9_gather_amended_witness :
    gather_file_tasks ["# a", "  ", "http://x", "song b"]
      = specGatherAmended ["# a", "  ", "http://x", "song b"] :=
  c9_gather_amended ["# a", "  ", "http://x", "song b"]

/-- Claim C10: a fetch that raises an exception other than `DownloadError`
escapes `download_list`: the urls before it are processed normally, the
raising url is attempted, and the urls after it are never attempted. -/
theorem c10_exception_propagation (fetch : String → FetchOutcome)
    (pre : List String) (u : String) (post : List String) (m : String)
    (hpre : ∀ v ∈ pre, (fetch v).isExn = false) (hu : fetch u = .otherExc m) :
    download_list fetch (pre ++ u :: post) = .raised (pre ++ [u]) (failsOf fetch pre) m := by
  have h := download_list_append fetch pre [] [] (u :: post) hpre
  simp only [download_list, h, List.nil_append]
  simp [download_list_aux, hu]

/-- Claim C10, witness: with `"b"` raising a non-`DownloadError` exception,
the run stops after `["a", "b"]` and `"c"`, `"d"` are never attempted. -/
theorem c10_exception_propagation_witness :
    download_list c10Fetch (["a"] ++ "b" :: ["c", "d"]) =
      DLRun.raised (["a"] ++ ["b"]) (failsOf c10Fetch ["a"]) "KeyError" :=
  c10_exception_propagation c10Fetch ["a"] "b" ["c", "d"] "KeyError"
    (by decide) (by decide)

end YtDl
